import Mathlib

/-!
Verification development for the AnytownUSA synthetic water-consumption
generators.  Two source variants are embedded:

* the slot-grouped variant (`synthetic-generator-multi.py`): patterns keyed by
  day-of-week and clock time, per-meter pattern variation, peak/zero-period
  modulation;
* the cluster variant (`water-consumption-generator.py`): patterns keyed by a
  cluster label drawn per meter, temporal hourly/weekly factors.

Numeric values are modelled as rationals.  Randomness is modelled by an
explicit oracle state `RState` holding two streams: `us`, the successive
outputs of uniform draws (`np.random.random()` and the uniform consumed
inside `np.random.choice`), each of which lies in `[0,1)` on a real run, and
`zs`, the successive noise draws backing `np.random.normal` calls.  Each
primitive consumes the head of its stream, so quantifying over all streams
quantifies over all possible sequences of draws.  Timestamps are minutes
since an arbitrary epoch; day-of-week and clock time are derived
arithmetically, abstracting the calendar names used by the source.
-/

/-- Oracle state for the ambient numpy random generator: `us` lists the
outcomes of the uniform draws still to come, `zs` the noise terms of the
normal draws still to come. -/
structure RState where
  us : List ℚ
  zs : List ℚ
  deriving Repr, DecidableEq

/-- Consume one uniform draw (`np.random.random()` or the uniform hidden in
`np.random.choice`). -/
def randU (r : RState) : ℚ × RState :=
  (r.us.headD 0, ⟨r.us.tail, r.zs⟩)

/-- Consume one normal draw `np.random.normal mu sigma` with the standard
deviation `sigma` known exactly: the stream value is the standard-normal
variate, so the produced value is `mu + sigma * z`. -/
def randN (mu sigma : ℚ) (r : RState) : ℚ × RState :=
  (mu + sigma * r.zs.headD 0, ⟨r.us, r.zs.tail⟩)

/-- Consume one normal draw `np.random.normal mu (sqrt sigmaSq)`.  The square
root is irrational in general, so here the stream value stands for the whole
noise term `sqrt sigmaSq * N(0,1)`; for `sigmaSq > 0` that noise ranges over
all of the reals, so quantifying over the stream covers every draw.  The
`sigmaSq` argument records the variance the source passes and is not used
numerically. -/
def randNvar (mu sigmaSq : ℚ) (r : RState) : ℚ × RState :=
  (mu + r.zs.headD 0, ⟨r.us, r.zs.tail⟩)

/-- Round-half-to-even on rationals, the rounding used by Python's built-in
`round`. -/
def roundEven (q : ℚ) : ℤ :=
  if q - ⌊q⌋ < 1/2 then ⌊q⌋
  else if 1/2 < q - ⌊q⌋ then ⌊q⌋ + 1
  else if Even ⌊q⌋ then ⌊q⌋ else ⌊q⌋ + 1

/-- Python's `round(q, 2)`. -/
def rnd2 (q : ℚ) : ℚ := (roundEven (100 * q) : ℚ) / 100

/-- Tolerance numpy's `random.choice` allows on the sum of the probability
vector: `sqrt(finfo(float64).eps) = 2 ^ (-26)`. -/
def atol : ℚ := 1 / 2 ^ 26

/-- Running partial sums starting from `acc`. -/
def cumsumFrom (acc : ℚ) : List ℚ → List ℚ
  | [] => []
  | x :: xs => (acc + x) :: cumsumFrom (acc + x) xs

/-- Cumulative sums of a list, as `np.cumsum`. -/
def cumsum (l : List ℚ) : List ℚ := cumsumFrom 0 l

/-- Validation `np.random.choice(a, p=p)` performs before drawing, with the
message of the `ValueError` it raises; `none` when the arguments are
accepted. -/
def npChoiceErr (n : ℕ) (p : List ℚ) : Option String :=
  if n = 0 then some "a must be greater than 0"
  else if p.length ≠ n then some "a and p must have same size"
  else if p.any (fun w => decide (w < 0)) then some "probabilities are not non-negative"
  else if ¬ |p.sum - 1| ≤ atol then some "probabilities do not sum to 1"
  else none

/-- Index selected by `np.random.choice` once validation passed: the
cumulative weights are normalized by their total (this is where numpy
renormalizes sums that are off by at most `atol`), the uniform `u` is located
in the normalized CDF by a right-sided binary search, and the index is
clipped to the population. -/
def cdfIndex (p : List ℚ) (u : ℚ) : ℕ :=
  min ((cumsum p).countP fun c => decide (c / p.sum ≤ u)) (p.length - 1)

/-- Dictionary lookup on an association list, embedding Python's
`dict.get` and `dict[...]` accesses (first binding wins). -/
def alookup {alpha beta : Type} [DecidableEq alpha] (k : alpha) :
    List (alpha × beta) → Option beta
  | [] => none
  | (a, b) :: rest => if a = k then some b else alookup k rest

/-! ## Slot-grouped variant (`synthetic-generator-multi.py`) -/

/-- Per-slot transition probabilities of the slot-grouped schema. -/
structure Transitions where
  zero_to_non_zero : ℚ
  non_zero_to_zero : ℚ
  deriving Repr, DecidableEq

/-- Observed basic statistics of a slot. -/
structure BasicStats where
  mean : ℚ
  std : ℚ
  min : ℚ
  max : ℚ
  deriving Repr, DecidableEq

/-- One time-of-day slot of the slot-grouped pattern schema.  The keys the
source reads unconditionally are plain fields; `transitions` is optional
because its absence (a `KeyError` in the source) is claim-relevant. -/
structure TimePattern where
  gmm_means : List ℚ
  gmm_weights : List ℚ
  gmm_covariances : List ℚ
  percentiles : List ℚ
  common_values : ℚ
  transitions : Option Transitions
  zero_probability : ℚ
  basic_stats : BasicStats
  deriving Repr, DecidableEq

/-- Declared peak hours and zero-period hours of one day. -/
structure DailySequence where
  peak_times : List ℕ
  zero_periods : List ℕ
  deriving Repr, DecidableEq

/-- One day of the slot-grouped pattern: the optional `daily_sequence` entry
plus the clock-time slots, keyed by `(hour, minute)`. -/
structure DayPatterns where
  daily_sequence : Option DailySequence
  slots : List ((ℕ × ℕ) × TimePattern)
  deriving Repr, DecidableEq

/-- The slot-grouped pattern file: days keyed by day-of-week index `0..6`
(the source keys by day name; a possible `global_patterns` entry is skipped
by the source and therefore omitted here). -/
structure Patterns where
  days : List (ℕ × DayPatterns)
  deriving Repr, DecidableEq

/-- One output row of the slot-grouped generator. -/
structure Reading where
  OBJECTID : ℤ
  TimeStamp : ℕ
  Consumption : ℚ
  deriving Repr, DecidableEq

/-- Embedding of `generate_consumption_value` (slot-grouped variant,
lines 12-47): two-state decision from the previous value, then mixture
component choice, normal draw, clipping to the observed bounds, occasional
common-value substitution, and a final clamp to `0`. -/
def generate_consumption_value (pattern : TimePattern) (previous_value : ℚ)
    (r : RState) : Except String (ℚ × RState) :=
  let p1 := randU r
  let random_val := p1.1
  let r1 := p1.2
  match pattern.transitions with
  | none => Except.error "KeyError: transitions"
  | some tr =>
    let should_be_zero : Bool :=
      if previous_value = 0 then !decide (random_val < tr.zero_to_non_zero)
      else decide (random_val < tr.non_zero_to_zero)
    if should_be_zero then Except.ok (0, r1)
    else
      match npChoiceErr pattern.gmm_means.length pattern.gmm_weights with
      | some msg => Except.error msg
      | none =>
        let p2 := randU r1
        let component := cdfIndex pattern.gmm_weights p2.1
        if component < pattern.gmm_covariances.length then
          let p3 := randNvar (pattern.gmm_means.getD component 0)
            (pattern.gmm_covariances.getD component 0) p2.2
          let value1 := max pattern.basic_stats.min (min pattern.basic_stats.max p3.1)
          let p4 := randU p3.2
          let value2 := if p4.1 < (1/5 : ℚ) then pattern.common_values else value1
          Except.ok (max 0 value2, p4.2)
        else Except.error "IndexError: list index out of range"

/-- Embedding of the per-meter pattern variation applied to the list of
mixture means (lines 72-73): each mean is multiplied by
`1 + np.random.normal(0, variation_factor)`, one draw per mean, in order. -/
def varyMeans (means : List ℚ) (variation_factor : ℚ) (r : RState) :
    List ℚ × RState :=
  match means with
  | [] => ([], r)
  | m :: ms =>
    let p := randN 0 variation_factor r
    let q := varyMeans ms variation_factor p.2
    (m * (1 + p.1) :: q.1, q.2)

/-- Embedding of the slot-variation dictionary literal (lines 71-88): means,
the common value and the basic-stats mean are perturbed, the other fields are
copied.  Draw and field-access order follows the literal: the mean draws,
then the common-value draw, then the `transitions` access (the `KeyError`
site when the key is absent), then the basic-stats mean draw. -/
def varySlot (tp : TimePattern) (variation_factor : ℚ) (r : RState) :
    Except String (TimePattern × RState) :=
  let pm := varyMeans tp.gmm_means variation_factor r
  let pc := randN 0 variation_factor pm.2
  match tp.transitions with
  | none => Except.error "KeyError: transitions"
  | some tr =>
    let pb := randN 0 variation_factor pc.2
    Except.ok
      ({ gmm_means := pm.1
         gmm_weights := tp.gmm_weights
         gmm_covariances := tp.gmm_covariances
         percentiles := tp.percentiles
         common_values := tp.common_values * (1 + pc.1)
         transitions := some tr
         zero_probability := tp.zero_probability
         basic_stats :=
           { mean := tp.basic_stats.mean * (1 + pb.1)
             std := tp.basic_stats.std
             min := tp.basic_stats.min
             max := tp.basic_stats.max } }, pb.2)

/-- Variation of every slot of one day, in slot order. -/
def varySlots (slots : List ((ℕ × ℕ) × TimePattern)) (variation_factor : ℚ)
    (r : RState) : Except String (List ((ℕ × ℕ) × TimePattern) × RState) :=
  match slots with
  | [] => Except.ok ([], r)
  | (k, tp) :: rest =>
    match varySlot tp variation_factor r with
    | Except.error e => Except.error e
    | Except.ok (tp', r') =>
      match varySlots rest variation_factor r' with
      | Except.error e => Except.error e
      | Except.ok (rest', r'') => Except.ok ((k, tp') :: rest', r'')

/-- Variation of every day of the pattern (lines 59-89): `daily_sequence`
entries are copied unchanged, every other slot is varied. -/
def varyPatterns (days : List (ℕ × DayPatterns)) (variation_factor : ℚ)
    (r : RState) : Except String (List (ℕ × DayPatterns) × RState) :=
  match days with
  | [] => Except.ok ([], r)
  | (d, dps) :: rest =>
    match varySlots dps.slots variation_factor r with
    | Except.error e => Except.error e
    | Except.ok (slots', r') =>
      match varyPatterns rest variation_factor r' with
      | Except.error e => Except.error e
      | Except.ok (rest', r'') =>
        Except.ok ((d, ⟨dps.daily_sequence, slots'⟩) :: rest', r'')

/-- Embedding of `pd.date_range(start, end, freq='15min')`: the timestamps
`start, start+15, ...` not exceeding `end` (empty when `start > end`),
in minutes. -/
def date_range (start_date end_date : ℕ) : List ℕ :=
  if start_date ≤ end_date then
    (List.range ((end_date - start_date) / 15 + 1)).map fun i => start_date + 15 * i
  else []

/-- Day-of-week index of a timestamp in minutes (`timestamp.day_name()` in
the source; the anchoring of index `0` to a concrete weekday is immaterial
because patterns are keyed by the same function). -/
def dayOfWeek (t : ℕ) : ℕ := t / 1440 % 7

/-- Clock-time key `(hour, minute)` of a timestamp
(`timestamp.strftime('%H:%M')` in the source). -/
def hmOf (t : ℕ) : ℕ × ℕ := (t % 1440 / 60, t % 60)

/-- Hour of a timestamp (`timestamp.hour`). -/
def hourOf (t : ℕ) : ℕ := t % 1440 / 60

/-- Embedding of lines 117-119: when the consumption is positive, add the
jitter `np.random.normal(0, basic_stats.std * 0.1)` and clamp to `0`. -/
def applyJitter (tp : TimePattern) (c : ℚ) (r : RState) : ℚ × RState :=
  if 0 < c then
    let p := randN 0 (tp.basic_stats.std * (1/10)) r
    (max 0 (c + p.1), p.2)
  else (c, r)

/-- Peak/zero-period modulation of one resolved slot (lines 101-114): during
a declared peak hour a zero sample is redrawn with probability `0.7`; during
a declared zero-period hour the value is forced to `0` with probability
`0.8`; otherwise the sampler runs once. -/
def slotBranch (tp : TimePattern) (ds : DailySequence) (hour : ℕ)
    (previous_value : ℚ) (r : RState) : Except String (ℚ × RState) :=
  if hour ∈ ds.peak_times then
    match generate_consumption_value tp previous_value r with
    | Except.error e => Except.error e
    | Except.ok (c, r1) =>
      if c = 0 then
        let p := randU r1
        if p.1 < (7/10 : ℚ) then
          generate_consumption_value tp previous_value p.2
        else Except.ok (0, p.2)
      else Except.ok (c, r1)
  else if hour ∈ ds.zero_periods then
    let p := randU r
    if p.1 < (4/5 : ℚ) then Except.ok (0, p.2)
    else generate_consumption_value tp previous_value p.2
  else generate_consumption_value tp previous_value r

/-- One iteration of the timestamp loop of `generate_meter_data`
(lines 91-129): returns the consumption for the slot, a flag telling whether
the slot resolved (the `if time_pattern and 'daily_sequence' in day_patterns`
branch was taken, in which case the caller stores the consumption as the new
previous value), and the advanced oracle. -/
def meterStep (mp : List (ℕ × DayPatterns)) (t : ℕ) (previous_value : ℚ)
    (r : RState) : Except String (ℚ × Bool × RState) :=
  match alookup (dayOfWeek t) mp with
  | none => Except.ok (0, false, r)
  | some dps =>
    match alookup (hmOf t) dps.slots, dps.daily_sequence with
    | some tp, some ds =>
      match slotBranch tp ds (hourOf t) previous_value r with
      | Except.error e => Except.error e
      | Except.ok (c, r2) =>
        let pj := applyJitter tp c r2
        Except.ok (pj.1, true, pj.2)
    | _, _ => Except.ok (0, false, r)

/-- The timestamp loop of `generate_meter_data`: one reading per timestamp,
with `Consumption` rounded to two decimals and the unrounded value threaded
as the previous value whenever the slot resolved. -/
def meterLoop (mp : List (ℕ × DayPatterns)) (object_id : ℤ) (ts : List ℕ)
    (previous_value : ℚ) (r : RState) : Except String (List Reading) :=
  match ts with
  | [] => Except.ok []
  | t :: rest =>
    match meterStep mp t previous_value r with
    | Except.error e => Except.error e
    | Except.ok (c, resolved, r') =>
      match meterLoop mp object_id rest (if resolved then c else previous_value) r' with
      | Except.error e => Except.error e
      | Except.ok out =>
        Except.ok ({ OBJECTID := object_id, TimeStamp := t, Consumption := rnd2 c } :: out)

/-- Embedding of `generate_meter_data` (lines 49-131): build the varied
per-meter pattern copy, then walk the 15-minute date range starting from
previous value `0`. -/
def generate_meter_data (patterns : Patterns) (start_date end_date : ℕ)
    (object_id : ℤ) (variation_factor : ℚ) (r : RState) :
    Except String (List Reading) :=
  match varyPatterns patterns.days variation_factor r with
  | Except.error e => Except.error e
  | Except.ok (mp, r') =>
    meterLoop mp object_id (date_range start_date end_date) 0 r'

/-- Sort key used by `final_df.sort_values(['TimeStamp', 'OBJECTID'])`:
lexicographic order on `(TimeStamp, OBJECTID)`. -/
def ReadingLE (a b : Reading) : Prop :=
  a.TimeStamp < b.TimeStamp ∨ (a.TimeStamp = b.TimeStamp ∧ a.OBJECTID ≤ b.OBJECTID)

instance ReadingLE.decRel : DecidableRel ReadingLE := fun _ _ =>
  inferInstanceAs (Decidable (_ ∨ _))

instance ReadingLE.isTotal : IsTotal Reading ReadingLE where
  total a b := by
    rcases lt_trichotomy a.TimeStamp b.TimeStamp with h | h | h
    · exact Or.inl (Or.inl h)
    · rcases le_total a.OBJECTID b.OBJECTID with h' | h'
      · exact Or.inl (Or.inr ⟨h, h'⟩)
      · exact Or.inr (Or.inr ⟨h.symm, h'⟩)
    · exact Or.inr (Or.inl h)

instance ReadingLE.isTrans : IsTrans Reading ReadingLE where
  trans a b c hab hbc := by
    rcases hab with h1 | ⟨e1, o1⟩
    · rcases hbc with h2 | ⟨e2, _⟩
      · exact Or.inl (h1.trans h2)
      · exact Or.inl (e2 ▸ h1)
    · rcases hbc with h2 | ⟨e2, o2⟩
      · exact Or.inl (e1 ▸ h2)
      · exact Or.inr ⟨e1.trans e2, o1.trans o2⟩

/-- Embedding of `generate_synthetic_data` (lines 133-195).  The thread pool
is modelled by giving every meter its own oracle state (`streams i`, the
draws that meter's thread happens to receive from the shared generator) and
by an arbitrary completion order `order` over the meter indices; a meter
whose future raised is skipped.  The concatenation is then sorted by
`(TimeStamp, OBJECTID)`.  One edge is smoothed over: when every meter fails,
`pd.concat` on an empty list raises in the source, while this embedding
returns the empty (vacuously sorted) dataset. -/
def generate_synthetic_data (patterns : Patterns) (start_date end_date : ℕ)
    (base_object_id : ℤ) (variation_factor : ℚ) (streams : ℕ → RState)
    (order : List ℕ) : List Reading :=
  let all_data := order.filterMap fun (i : ℕ) =>
    (generate_meter_data patterns start_date end_date (base_object_id + (i : ℤ))
      variation_factor (streams i)).toOption
  List.insertionSort ReadingLE all_data.flatten

/-! ## Cluster variant (`water-consumption-generator.py`) -/

/-- Mixture parameters of one cluster. -/
structure GmmParams where
  means : List ℚ
  weights : List ℚ
  covars : List ℚ
  deriving Repr, DecidableEq

/-- Hourly and weekly multiplicative factors of one cluster: entries are
keyed by hour or weekday, and each present entry may or may not carry a
`mean` value (both lookups fall back to `1.0`). -/
structure TemporalPatterns where
  hourly_patterns : List (ℕ × Option ℚ)
  weekly_patterns : List (ℕ × Option ℚ)
  deriving Repr, DecidableEq

/-- Cluster transition table: current-state label to a distribution over
next-state labels. -/
abbrev TransMap := List (ℕ × List (ℕ × ℚ))

/-- One cluster's pattern slice; all three keys are read with `.get` in the
source and may therefore be absent. -/
structure ClusterPattern where
  gmm : Option GmmParams
  temporal_patterns : Option TemporalPatterns
  transitions : Option TransMap
  deriving Repr, DecidableEq

/-- The cluster-schema pattern file after loading. -/
structure PatternsData where
  cluster_probabilities : List (ℕ × ℚ)
  patterns : List (ℕ × ClusterPattern)
  deriving Repr, DecidableEq

/-- One output row of the cluster generator before the meter id is attached. -/
structure RecordBase where
  TimeStamp : ℕ
  Consumption : ℚ
  Cluster : ℕ
  deriving Repr, DecidableEq

/-- One output row of the cluster generator. -/
structure RecordC where
  TimeStamp : ℕ
  Consumption : ℚ
  Cluster : ℕ
  MeterID : ℕ
  deriving Repr, DecidableEq

/-- Embedding of `assign_cluster` (lines 33-37): a categorical draw over the
cluster labels by their configured probabilities.  Errors carry the oracle
state reached when they are raised. -/
def assign_cluster (cluster_probabilities : List (ℕ × ℚ)) (r : RState) :
    Except (String × RState) (ℕ × RState) :=
  let clusters := cluster_probabilities.map Prod.fst
  let probabilities := cluster_probabilities.map Prod.snd
  match npChoiceErr clusters.length probabilities with
  | some e => Except.error (e, r)
  | none =>
    let p := randU r
    Except.ok (clusters.getD (cdfIndex probabilities p.1) 0, p.2)

/-- Embedding of `generate_consumption_state` (lines 39-44): look up the
current state's row, defaulting to `{'0': 0.5, '1': 0.5}`, and draw the next
state from that distribution. -/
def generate_consumption_state (current_state : ℕ) (transitions : TransMap)
    (r : RState) : Except (String × RState) (ℕ × RState) :=
  let probs := (alookup current_state transitions).getD [(0, 1/2), (1, 1/2)]
  let states := probs.map Prod.fst
  let probabilities := probs.map Prod.snd
  match npChoiceErr states.length probabilities with
  | some e => Except.error (e, r)
  | none =>
    let p := randU r
    Except.ok (states.getD (cdfIndex probabilities p.1) 0, p.2)

/-- Body of the `try` block of `generate_consumption_value` (cluster variant,
lines 48-72): `None` mixture yields `0`; otherwise draw a component and a
base value, blend the temporal factors (defaulting to `1.0`), add the
`N(0, 0.1)` variation, clamp to `0` and round to two decimals. -/
def gcvClusterTry (gmm_params : Option GmmParams)
    (temporal_patterns : TemporalPatterns) (hour day_of_week : ℕ)
    (r : RState) : Except (String × RState) (ℚ × RState) :=
  match gmm_params with
  | none => Except.ok (0, r)
  | some g =>
    match npChoiceErr g.means.length g.weights with
    | some e => Except.error (e, r)
    | none =>
      let p1 := randU r
      let component := cdfIndex g.weights p1.1
      if component < g.covars.length then
        let p2 := randNvar (g.means.getD component 0) (g.covars.getD component 0) p1.2
        let hourly_factor := ((alookup hour temporal_patterns.hourly_patterns).getD none).getD 1
        let weekly_factor := ((alookup day_of_week temporal_patterns.weekly_patterns).getD none).getD 1
        let p3 := randN 0 (1/10) p2.2
        let adjusted_value := max 0 (p2.1 * (hourly_factor + weekly_factor) / 2 + p3.1)
        Except.ok (rnd2 adjusted_value, p3.2)
      else Except.error ("IndexError: list index out of range", p1.2)

/-- Embedding of `generate_consumption_value` (cluster variant, lines 46-79):
the broad `except` handler logs and returns `0`, keeping the oracle where the
exception left it. -/
def generate_consumption_value_c (gmm_params : Option GmmParams)
    (temporal_patterns : TemporalPatterns) (hour day_of_week : ℕ)
    (r : RState) : ℚ × RState :=
  match gcvClusterTry gmm_params temporal_patterns hour day_of_week r with
  | Except.ok res => res
  | Except.error (_, r') => (0, r')

/-- The period loop of the cluster `generate_meter_data` (lines 88-118):
advance the occupancy state, emit `0` in state `0` and a sampled value
otherwise, and step the clock by `time_interval` minutes. -/
def meterLoopC (cluster_patterns : ClusterPattern) (clusterLabel : ℕ)
    (num_periods : ℕ) (time_interval : ℕ) (current_time : ℕ)
    (current_state : ℕ) (r : RState) :
    Except (String × RState) (List RecordBase × RState) :=
  match num_periods with
  | 0 => Except.ok ([], r)
  | n + 1 =>
    match generate_consumption_state current_state
        (cluster_patterns.transitions.getD [(0, [(0, 1/2), (1, 1/2)])]) r with
    | Except.error e => Except.error e
    | Except.ok (st, r1) =>
      let pc :=
        if st = 0 then ((0 : ℚ), r1)
        else generate_consumption_value_c cluster_patterns.gmm
          (cluster_patterns.temporal_patterns.getD ⟨[], []⟩)
          (hourOf current_time) (dayOfWeek current_time) r1
      match meterLoopC cluster_patterns clusterLabel n time_interval
          (current_time + time_interval) st pc.2 with
      | Except.error e => Except.error e
      | Except.ok (rest, r2) =>
        Except.ok ({ TimeStamp := current_time, Consumption := pc.1,
                     Cluster := clusterLabel } :: rest, r2)

/-- Embedding of the cluster `generate_meter_data` (lines 81-124): resolve
the cluster's slice (a `KeyError` when the label is absent) and run the
period loop from state `0`. -/
def generate_meter_data_c (patterns : List (ℕ × ClusterPattern)) (cluster : ℕ)
    (start_date : ℕ) (num_periods : ℕ) (time_interval : ℕ) (r : RState) :
    Except (String × RState) (List RecordBase × RState) :=
  match alookup cluster patterns with
  | none => Except.error ("KeyError: cluster", r)
  | some cp => meterLoopC cp cluster num_periods time_interval start_date 0 r

/-- The meter loop of the cluster `generate_synthetic_data` (lines 137-162):
assign a cluster, generate the meter's records, tag them with the meter id,
and on any per-meter exception skip that meter and continue. -/
def gsdLoopC (pd : PatternsData) (num_periods time_interval start_date : ℕ)
    (meter_id : ℕ) (remaining : ℕ) (r : RState) : List RecordC × RState :=
  match remaining with
  | 0 => ([], r)
  | k + 1 =>
    let step : Except (String × RState) (List RecordBase × RState) :=
      match assign_cluster pd.cluster_probabilities r with
      | Except.error e => Except.error e
      | Except.ok (cluster, r1) =>
        generate_meter_data_c pd.patterns cluster start_date num_periods
          time_interval r1
    match step with
    | Except.ok (data, r1) =>
      let recs := data.map fun d =>
        { TimeStamp := d.TimeStamp, Consumption := d.Consumption,
          Cluster := d.Cluster, MeterID := meter_id : RecordC }
      let q := gsdLoopC pd num_periods time_interval start_date (meter_id + 1) k r1
      (recs ++ q.1, q.2)
    | Except.error (_, r1) =>
      gsdLoopC pd num_periods time_interval start_date (meter_id + 1) k r1

/-- Embedding of the cluster `generate_synthetic_data` (lines 126-173):
meters `1..num_meters` in order, concatenated in that order; the resulting
table is written without any sorting. -/
def generate_synthetic_data_c (pd : PatternsData) (num_meters num_periods
    time_interval start_date : ℕ) (r : RState) : List RecordC :=
  (gsdLoopC pd num_periods time_interval start_date 1 num_meters r).1

/-- Sort key `(TimeStamp, MeterID)` for the cluster variant's rows, used to
state what an output sorted by (timestamp, entityId) would satisfy. -/
def RecordCLE (a b : RecordC) : Prop :=
  a.TimeStamp < b.TimeStamp ∨ (a.TimeStamp = b.TimeStamp ∧ a.MeterID ≤ b.MeterID)

instance RecordCLE.decRel : DecidableRel RecordCLE := fun _ _ =>
  inferInstanceAs (Decidable (_ ∨ _))

/-! ## Occupancy-abstraction machines for the slot-grouped loop -/

/-- The slot-grouped timestamp loop rewritten over a Boolean occupancy state:
the consulted previous value is `0` when the state is `zero` and `1`
otherwise, and the state is updated to `decide (c = 0)` (the unrounded value)
only on steps whose slot resolved.  The amended claim C10 states that
`meterLoop` is exactly this machine. -/
def meterLoopB (mp : List (ℕ × DayPatterns)) (object_id : ℤ) (ts : List ℕ)
    (isZero : Bool) (r : RState) : Except String (List Reading) :=
  match ts with
  | [] => Except.ok []
  | t :: rest =>
    match meterStep mp t (if isZero then 0 else 1) r with
    | Except.error e => Except.error e
    | Except.ok (c, resolved, r') =>
      match meterLoopB mp object_id rest
          (if resolved then decide (c = 0) else isZero) r' with
      | Except.error e => Except.error e
      | Except.ok out =>
        Except.ok ({ OBJECTID := object_id, TimeStamp := t,
                     Consumption := rnd2 c } :: out)

/-- Machine following claim C10 word for word: the occupancy state consulted
at step `k+1` is the predicate "the consumption emitted at step `k` was
zero", where the emitted consumption is the rounded value appended to the
output, and the state is updated on every step (so a zero emitted because the
slot is missing resets it to `zero`). -/
def meterLoopClaimC10 (mp : List (ℕ × DayPatterns)) (object_id : ℤ)
    (ts : List ℕ) (emittedZero : Bool) (r : RState) :
    Except String (List Reading) :=
  match ts with
  | [] => Except.ok []
  | t :: rest =>
    match meterStep mp t (if emittedZero then 0 else 1) r with
    | Except.error e => Except.error e
    | Except.ok (c, _, r') =>
      match meterLoopClaimC10 mp object_id rest (decide (rnd2 c = 0)) r' with
      | Except.error e => Except.error e
      | Except.ok out =>
        Except.ok ({ OBJECTID := object_id, TimeStamp := t,
                     Consumption := rnd2 c } :: out)

/-! ## Concrete instances used by witnesses and counterexamples -/

/-- A benign slot: one mixture component with mean `5`, transitions that
always leave the zero state and never re-enter it. -/
def exSlotA : TimePattern :=
  { gmm_means := [5], gmm_weights := [1], gmm_covariances := [1]
    percentiles := [], common_values := 5
    transitions := some { zero_to_non_zero := 1, non_zero_to_zero := 0 }
    zero_probability := 0
    basic_stats := { mean := 5, std := 0, min := 0, max := 10 } }

/-- Like `exSlotA` but with transitions that freeze the occupancy state
(never leave zero, never leave non-zero). -/
def exSlotB : TimePattern :=
  { exSlotA with transitions := some { zero_to_non_zero := 0, non_zero_to_zero := 0 } }

/-- Day `0` with slots at `00:00` and `00:30` but nothing at `00:15`. -/
def exDaysC10 : List (ℕ × DayPatterns) :=
  [(0, { daily_sequence := some { peak_times := [], zero_periods := [] }
         slots := [((0, 0), exSlotA), ((0, 30), exSlotB)] })]

/-- Uniform draws for three loop steps of `exDaysC10`: each resolved step
consumes a transition draw, a component draw and a common-value draw. -/
def exRC10 : RState := ⟨[0, 0, 1/2, 0, 0, 1/2], []⟩

/-- Slot whose mixture weights sum to `2/5`, far outside numpy's tolerance. -/
def exSlotBadW : TimePattern :=
  { exSlotA with gmm_weights := [1/5, 1/5], gmm_means := [5, 7],
                 gmm_covariances := [1, 1] }

/-- Slot with no `transitions` key. -/
def exSlotNoTrans : TimePattern := { exSlotA with transitions := none }

/-- Slot with an empty mixture. -/
def exSlotEmptyMix : TimePattern :=
  { exSlotA with gmm_means := [], gmm_weights := [], gmm_covariances := [] }

/-- Pattern with a single always-zero slot (`zero_to_non_zero = 0`). -/
def exPatternsC9 : Patterns :=
  { days := [(0, { daily_sequence := some { peak_times := [0], zero_periods := [] }
                   slots := [((0, 0), exSlotB)] })] }

/-- Cluster pattern slice with no optional key present. -/
def exClusterEmpty : ClusterPattern :=
  { gmm := none, temporal_patterns := none, transitions := none }

/-- Cluster pattern file with one certain cluster `0` whose slice is empty:
every state draw uses the default transitions and every meter stays at
consumption `0`. -/
def exPdTrivial : PatternsData :=
  { cluster_probabilities := [(0, 1)], patterns := [(0, exClusterEmpty)] }

/-- Mixture with one component of mean `10` for the cluster variant. -/
def exGmm10 : GmmParams := { means := [10], weights := [1], covars := [1] }

/-- Cluster slice that deterministically enters and stays in the non-zero
state and samples from `exGmm10`. -/
def exClusterNZ : ClusterPattern :=
  { gmm := some exGmm10, temporal_patterns := none
    transitions := some [(0, [(1, 1)]), (1, [(1, 1)])] }

/-- Cluster pattern file around `exClusterNZ`. -/
def exPdNZ : PatternsData :=
  { cluster_probabilities := [(0, 1)], patterns := [(0, exClusterNZ)] }

/-! ## Helper lemmas -/

theorem roundEven_nonneg (q : ℚ) (hq : 0 ≤ q) : 0 ≤ roundEven q := by
  unfold roundEven
  have h0 : (0 : ℤ) ≤ ⌊q⌋ := Int.floor_nonneg.mpr hq
  split
  · exact h0
  · split
    · omega
    · split <;> omega

theorem rnd2_nonneg (q : ℚ) (hq : 0 ≤ q) : 0 ≤ rnd2 q := by
  unfold rnd2
  have h := roundEven_nonneg (100 * q) (by positivity)
  positivity

theorem gcv_ok_nonneg (p : TimePattern) (v : ℚ) (r : RState) (c : ℚ)
    (r' : RState) (h : generate_consumption_value p v r = Except.ok (c, r')) :
    0 ≤ c := by
  simp only [generate_consumption_value] at h
  repeat' split at h
  all_goals first
    | exact Except.noConfusion h
    | (injection h with h1; injection h1 with h2 h3; exact h2 ▸ (by simp [le_max_iff]))

theorem applyJitter_nonneg (tp : TimePattern) (c : ℚ) (r : RState)
    (hc : 0 ≤ c) : 0 ≤ (applyJitter tp c r).1 := by
  unfold applyJitter
  split
  · exact le_max_left 0 _
  · exact hc

theorem slotBranch_ok_nonneg (tp : TimePattern) (ds : DailySequence)
    (hour : ℕ) (v : ℚ) (r : RState) (c : ℚ) (r' : RState)
    (h : slotBranch tp ds hour v r = Except.ok (c, r')) : 0 ≤ c := by
  simp only [slotBranch] at h
  repeat' split at h
  all_goals first
    | exact Except.noConfusion h
    | exact gcv_ok_nonneg _ _ _ _ _ h
    | (injection h with h1; injection h1 with h2 h3;
       first
         | exact h2 ▸ le_refl 0
         | (rename_i hgcv _; exact h2 ▸ gcv_ok_nonneg _ _ _ _ _ hgcv))

theorem meterStep_ok_nonneg (mp : List (ℕ × DayPatterns)) (t : ℕ) (v : ℚ)
    (r : RState) (c : ℚ) (b : Bool) (r' : RState)
    (h : meterStep mp t v r = Except.ok (c, b, r')) : 0 ≤ c := by
  simp only [meterStep] at h
  repeat' split at h
  all_goals first
    | exact Except.noConfusion h
    | (injection h with h1; injection h1 with h2 h3; exact h2 ▸ le_refl 0)
    | (rename_i c0 r2 hbr;
       injection h with h1; injection h1 with h2 h3;
       exact h2 ▸ applyJitter_nonneg _ _ _ (slotBranch_ok_nonneg _ _ _ _ _ _ _ hbr))

theorem meterLoop_mem_nonneg (mp : List (ℕ × DayPatterns)) (oid : ℤ)
    (ts : List ℕ) (v : ℚ) (r : RState) (out : List Reading)
    (h : meterLoop mp oid ts v r = Except.ok out) :
    ∀ rec ∈ out, 0 ≤ rec.Consumption := by
  induction ts generalizing v r out with
  | nil =>
    simp only [meterLoop] at h
    injection h with h1
    simp [← h1]
  | cons t rest ih =>
    simp only [meterLoop] at h
    split at h
    · exact Except.noConfusion h
    · rename_i c resolved r2 hstep
      split at h
      · exact Except.noConfusion h
      · rename_i out2 htail
        injection h with h1
        intro rec hrec
        rw [← h1] at hrec
        rcases List.mem_cons.mp hrec with hr | hr
        · rw [hr]
          exact rnd2_nonneg _ (meterStep_ok_nonneg _ _ _ _ _ _ _ hstep)
        · exact ih _ _ _ htail rec hr

theorem gcvClusterTry_ok_nonneg (g : Option GmmParams) (tp : TemporalPatterns)
    (hour dow : ℕ) (r : RState) (c : ℚ) (r' : RState)
    (h : gcvClusterTry g tp hour dow r = Except.ok (c, r')) : 0 ≤ c := by
  simp only [gcvClusterTry] at h
  repeat' split at h
  all_goals first
    | exact Except.noConfusion h
    | (injection h with h1; injection h1 with h2 h3;
       exact h2 ▸ (by first
         | exact le_refl 0
         | exact rnd2_nonneg _ (le_max_left 0 _)))

theorem gcvC_nonneg (g : Option GmmParams) (tp : TemporalPatterns)
    (hour dow : ℕ) (r : RState) :
    0 ≤ (generate_consumption_value_c g tp hour dow r).1 := by
  unfold generate_consumption_value_c
  split
  · rename_i res hres
    exact gcvClusterTry_ok_nonneg _ _ _ _ _ _ _ (by rw [hres])
  · exact le_refl 0

theorem meterLoopC_mem_nonneg (cp : ClusterPattern) (cl : ℕ) (n ti t st : ℕ)
    (r : RState) (out : List RecordBase) (r' : RState)
    (h : meterLoopC cp cl n ti t st r = Except.ok (out, r')) :
    ∀ rec ∈ out, 0 ≤ rec.Consumption := by
  induction n generalizing t st r out r' with
  | zero =>
    simp only [meterLoopC] at h
    injection h with h1
    injection h1 with h2 h3
    simp [← h2]
  | succ n ih =>
    simp only [meterLoopC] at h
    split at h
    · exact Except.noConfusion h
    · rename_i st2 r1 hst
      split at h
      · exact Except.noConfusion h
      · rename_i rest r2 htail
        injection h with h1
        injection h1 with h2 h3
        intro rec hrec
        rw [← h2] at hrec
        rcases List.mem_cons.mp hrec with hr | hr
        · rw [hr]
          simp only
          split
          · exact le_refl 0
          · exact gcvC_nonneg _ _ _ _ _
        · exact ih _ _ _ _ _ htail rec hr

theorem gmdC_mem_nonneg (patterns : List (ℕ × ClusterPattern)) (cl : ℕ)
    (start n ti : ℕ) (r : RState) (out : List RecordBase) (r' : RState)
    (h : generate_meter_data_c patterns cl start n ti r = Except.ok (out, r')) :
    ∀ rec ∈ out, 0 ≤ rec.Consumption := by
  simp only [generate_meter_data_c] at h
  split at h
  · exact Except.noConfusion h
  · exact meterLoopC_mem_nonneg _ _ _ _ _ _ _ _ _ h

theorem gsdLoopC_mem_nonneg (pd : PatternsData) (n ti start mid rem : ℕ)
    (r : RState) :
    ∀ rec ∈ (gsdLoopC pd n ti start mid rem r).1, 0 ≤ rec.Consumption := by
  induction rem generalizing mid r with
  | zero => simp [gsdLoopC]
  | succ k ih =>
    simp only [gsdLoopC]
    split
    · rename_i data r1 hok
      intro rec hrec
      rcases List.mem_append.mp hrec with hr | hr
      · rcases List.mem_map.mp hr with ⟨d, hd, hdr⟩
        rw [← hdr]
        split at hok
        · exact Except.noConfusion hok
        · rename_i cl r2 hcl
          exact gmdC_mem_nonneg _ _ _ _ _ _ _ _ hok d hd
      · exact ih _ _ rec hr
    · exact ih _ _
/-- C1: for every generated reading of every entity, under any pattern file
and any sequence of random draws, the emitted consumption value is greater
than or equal to `0`, in both pattern-schema variants. -/
theorem C1_consumption_nonneg :
    (∀ (patterns : Patterns) (start_date end_date : ℕ) (oid : ℤ) (v : ℚ)
       (r : RState) (out : List Reading),
       generate_meter_data patterns start_date end_date oid v r = Except.ok out →
       ∀ rec ∈ out, 0 ≤ rec.Consumption) ∧
    (∀ (pd : PatternsData) (num_meters num_periods time_interval start_date : ℕ)
       (r : RState),
       ∀ rec ∈ generate_synthetic_data_c pd num_meters num_periods time_interval
         start_date r, 0 ≤ rec.Consumption) := by
  constructor
  · intro patterns s e oid v r out h
    simp only [generate_meter_data] at h
    split at h
    · exact Except.noConfusion h
    · exact meterLoop_mem_nonneg _ _ _ _ _ _ h
  · intro pd nm np ti sd r
    exact gsdLoopC_mem_nonneg _ _ _ _ _ _ _

/-- Witness for C1 at a concrete run of each variant. -/
theorem C1_witness :
    (0 ≤ ({ OBJECTID := 1, TimeStamp := 0, Consumption := 0 } : Reading).Consumption) ∧
    (0 ≤ ({ TimeStamp := 0, Consumption := 0, Cluster := 0, MeterID := 1 } : RecordC).Consumption) := by
  constructor
  · exact C1_consumption_nonneg.1 ⟨[]⟩ 0 0 1 0 ⟨[], []⟩
      [{ OBJECTID := 1, TimeStamp := 0, Consumption := 0 }]
      (by norm_num [generate_meter_data, varyPatterns, meterLoop, meterStep,
        date_range, dayOfWeek, alookup, List.range, rnd2, roundEven])
      _ (by simp)
  · exact C1_consumption_nonneg.2 exPdTrivial 1 1 15 0 ⟨[], []⟩
      _ (by norm_num [generate_synthetic_data_c, gsdLoopC, assign_cluster,
        generate_meter_data_c, meterLoopC, generate_consumption_state,
        npChoiceErr, cdfIndex, cumsum, cumsumFrom, atol, randU,
        exPdTrivial, exClusterEmpty, alookup])

theorem meterLoop_map_timestamps (mp : List (ℕ × DayPatterns)) (oid : ℤ)
    (ts : List ℕ) (v : ℚ) (r : RState) (out : List Reading)
    (h : meterLoop mp oid ts v r = Except.ok out) :
    out.map (fun rec => rec.TimeStamp) = ts := by
  induction ts generalizing v r out with
  | nil =>
    simp only [meterLoop] at h
    injection h with h1
    simp [← h1]
  | cons t rest ih =>
    simp only [meterLoop] at h
    split at h
    · exact Except.noConfusion h
    · rename_i c resolved r2 hstep
      split at h
      · exact Except.noConfusion h
      · rename_i out2 htail
        injection h with h1
        rw [← h1]
        simp only [List.map_cons]
        rw [ih _ _ _ htail]

theorem meterLoopC_map_timestamps (cp : ClusterPattern) (cl : ℕ) (n ti t st : ℕ)
    (r : RState) (out : List RecordBase) (r' : RState)
    (h : meterLoopC cp cl n ti t st r = Except.ok (out, r')) :
    out.map (fun rec => rec.TimeStamp) = (List.range n).map (fun i => t + ti * i) := by
  induction n generalizing t st r out r' with
  | zero =>
    simp only [meterLoopC] at h
    injection h with h1
    injection h1 with h2 h3
    simp [← h2]
  | succ n ih =>
    simp only [meterLoopC] at h
    split at h
    · exact Except.noConfusion h
    · rename_i st2 r1 hst
      split at h
      · exact Except.noConfusion h
      · rename_i rest r2 htail
        injection h with h1
        injection h1 with h2 h3
        rw [← h2]
        simp only [List.map_cons]
        rw [ih _ _ _ _ _ htail]
        rw [List.range_succ_eq_map]
        simp only [List.map_cons, List.map_map, List.cons.injEq]
        constructor
        · simp
        · exact List.map_congr_left fun i _ => by
            simp only [Function.comp_apply]
            rw [Nat.mul_succ]
            omega

/-- C2: the number of readings per entity equals the requested period count:
the slot-grouped variant emits one reading per timestamp of the 15-minute
range, the cluster variant exactly `num_periods` readings spaced
`time_interval` minutes apart. -/
theorem C2_reading_count :
    (∀ (patterns : Patterns) (start_date end_date : ℕ) (oid : ℤ) (v : ℚ)
       (r : RState) (out : List Reading),
       generate_meter_data patterns start_date end_date oid v r = Except.ok out →
       out.map (fun rec => rec.TimeStamp) = date_range start_date end_date ∧
       out.length = (date_range start_date end_date).length) ∧
    (∀ (patterns : List (ℕ × ClusterPattern)) (cl start_date num_periods
       time_interval : ℕ) (r : RState) (out : List RecordBase) (r' : RState),
       generate_meter_data_c patterns cl start_date num_periods time_interval r =
         Except.ok (out, r') →
       out.length = num_periods ∧
       out.map (fun rec => rec.TimeStamp) =
         (List.range num_periods).map (fun i => start_date + time_interval * i)) := by
  constructor
  · intro patterns s e oid v r out h
    simp only [generate_meter_data] at h
    split at h
    · exact Except.noConfusion h
    · have hm := meterLoop_map_timestamps _ _ _ _ _ _ h
      refine ⟨hm, ?_⟩
      have := congrArg List.length hm
      simpa using this
  · intro patterns cl sd np ti r out r' h
    simp only [generate_meter_data_c] at h
    split at h
    · exact Except.noConfusion h
    · have hm := meterLoopC_map_timestamps _ _ _ _ _ _ _ _ _ h
      have hl := congrArg List.length hm
      simp only [List.length_map, List.length_range] at hl
      exact ⟨hl, hm⟩

/-- Witness for C2 at a concrete run of each variant. -/
theorem C2_witness :
    (([{ OBJECTID := 1, TimeStamp := 0, Consumption := 0 }] : List Reading).map
        (fun rec => rec.TimeStamp) = date_range 0 0 ∧
      ([{ OBJECTID := 1, TimeStamp := 0, Consumption := 0 }] : List Reading).length =
        (date_range 0 0).length) ∧
    (([{ TimeStamp := 0, Consumption := 0, Cluster := 0 },
       { TimeStamp := 15, Consumption := 0, Cluster := 0 }] : List RecordBase).length = 2 ∧
      ([{ TimeStamp := 0, Consumption := 0, Cluster := 0 },
        { TimeStamp := 15, Consumption := 0, Cluster := 0 }] : List RecordBase).map
          (fun rec => rec.TimeStamp) = (List.range 2).map (fun i => 0 + 15 * i)) := by
  constructor
  · exact C2_reading_count.1 ⟨[]⟩ 0 0 1 0 ⟨[], []⟩
      [{ OBJECTID := 1, TimeStamp := 0, Consumption := 0 }]
      (by norm_num [generate_meter_data, varyPatterns, meterLoop, meterStep,
        date_range, dayOfWeek, alookup, List.range, rnd2, roundEven])
  · exact C2_reading_count.2 [(0, exClusterEmpty)] 0 0 2 15 ⟨[], []⟩
      [{ TimeStamp := 0, Consumption := 0, Cluster := 0 },
       { TimeStamp := 15, Consumption := 0, Cluster := 0 }] ⟨[], []⟩
      (by norm_num [generate_meter_data_c, meterLoopC, generate_consumption_state,
        npChoiceErr, cdfIndex, cumsum, cumsumFrom, atol, randU,
        exClusterEmpty, alookup, hourOf, dayOfWeek])

/-- C3 (supporting theorem): the generation pipeline is a function of the
ambient numpy draw stream, which no function of either source seeds or
receives as a parameter: two runs with identical inputs but different ambient
draws produce different datasets. -/
theorem C3_output_depends_on_ambient_draws :
    generate_synthetic_data_c exPdNZ 1 1 15 0 ⟨[0, 0, 0], [0, 0]⟩ ≠
      generate_synthetic_data_c exPdNZ 1 1 15 0 ⟨[0, 0, 0], [1, 0]⟩ := by
  have h1 : generate_synthetic_data_c exPdNZ 1 1 15 0 ⟨[0, 0, 0], [0, 0]⟩ =
      [{ TimeStamp := 0, Consumption := 10, Cluster := 0, MeterID := 1 }] := by
    norm_num [generate_synthetic_data_c, gsdLoopC, assign_cluster,
      generate_meter_data_c, meterLoopC, generate_consumption_state,
      generate_consumption_value_c, gcvClusterTry, npChoiceErr, cdfIndex,
      cumsum, cumsumFrom, atol, randU, randN, randNvar, rnd2, roundEven,
      exPdNZ, exClusterNZ, exGmm10, alookup, hourOf, dayOfWeek]
  have h2 : generate_synthetic_data_c exPdNZ 1 1 15 0 ⟨[0, 0, 0], [1, 0]⟩ =
      [{ TimeStamp := 0, Consumption := 11, Cluster := 0, MeterID := 1 }] := by
    norm_num [generate_synthetic_data_c, gsdLoopC, assign_cluster,
      generate_meter_data_c, meterLoopC, generate_consumption_state,
      generate_consumption_value_c, gcvClusterTry, npChoiceErr, cdfIndex,
      cumsum, cumsumFrom, atol, randU, randN, randNvar, rnd2, roundEven,
      exPdNZ, exClusterNZ, exGmm10, alookup, hourOf, dayOfWeek]
  rw [h1, h2]
  norm_num [Except.toOption]

/-- C4 counterexample: with two meters and two periods the cluster variant's
merged dataset is grouped by meter, not sorted by `(timestamp, entityId)` —
the second meter's first row carries an earlier timestamp than the first
meter's second row. -/
theorem C4_counterexample :
    ¬ List.Pairwise RecordCLE (generate_synthetic_data_c exPdTrivial 2 2 15 0 ⟨[], []⟩) := by
  have h : generate_synthetic_data_c exPdTrivial 2 2 15 0 ⟨[], []⟩ =
      [{ TimeStamp := 0, Consumption := 0, Cluster := 0, MeterID := 1 },
       { TimeStamp := 15, Consumption := 0, Cluster := 0, MeterID := 1 },
       { TimeStamp := 0, Consumption := 0, Cluster := 0, MeterID := 2 },
       { TimeStamp := 15, Consumption := 0, Cluster := 0, MeterID := 2 }] := by
    norm_num [generate_synthetic_data_c, gsdLoopC, assign_cluster,
      generate_meter_data_c, meterLoopC, generate_consumption_state,
      npChoiceErr, cdfIndex, cumsum, cumsumFrom, atol, randU,
      exPdTrivial, exClusterEmpty, alookup]
  rw [h]
  norm_num [List.pairwise_cons, RecordCLE]

/-- C4 as amended: in the slot-grouped variant the merged dataset is sorted
by `(TimeStamp, OBJECTID)` — for every pattern file, every per-meter draw
stream and every completion order — and re-sorting it by that key leaves it
unchanged; the cluster variant (see the counterexample) emits rows grouped by
meter without sorting. -/
theorem C4_amended_sorted_merge (patterns : Patterns) (start_date end_date : ℕ)
    (base_object_id : ℤ) (v : ℚ) (streams : ℕ → RState) (order : List ℕ) :
    List.Sorted ReadingLE
      (generate_synthetic_data patterns start_date end_date base_object_id v
        streams order) ∧
    List.insertionSort ReadingLE
      (generate_synthetic_data patterns start_date end_date base_object_id v
        streams order) =
      generate_synthetic_data patterns start_date end_date base_object_id v
        streams order := by
  have hs : List.Sorted ReadingLE
      (generate_synthetic_data patterns start_date end_date base_object_id v
        streams order) := by
    unfold generate_synthetic_data
    exact List.sorted_insertionSort ReadingLE _
  exact ⟨hs, hs.insertionSort_eq⟩

theorem npChoiceErr_not_sum_one (n : ℕ) (p : List ℚ) (hn : n ≠ 0)
    (hlen : p.length = n) (hpos : ∀ w ∈ p, 0 ≤ w)
    (hsum : ¬ |p.sum - 1| ≤ atol) :
    npChoiceErr n p = some "probabilities do not sum to 1" := by
  unfold npChoiceErr
  rw [if_neg hn, if_neg (by simp [hlen]), if_neg ?hneg, if_pos hsum]
  case hneg =>
    simp only [List.any_eq_true, decide_eq_true_eq, not_exists, not_and, not_lt]
    intro w hw
    exact hpos w hw

theorem cumsumFrom_map_mul (c a : ℚ) (l : List ℚ) :
    cumsumFrom (c * a) (l.map fun w => c * w) = (cumsumFrom a l).map fun w => c * w := by
  induction l generalizing a with
  | nil => simp [cumsumFrom]
  | cons x xs ih =>
    simp only [List.map_cons, cumsumFrom, ← mul_add, ih]

theorem cumsum_map_mul (c : ℚ) (l : List ℚ) :
    cumsum (l.map fun w => c * w) = (cumsum l).map fun w => c * w := by
  have h := cumsumFrom_map_mul c 0 l
  simpa [cumsum] using h

theorem sum_map_mul_const (c : ℚ) (l : List ℚ) :
    (l.map fun w => c * w).sum = c * l.sum := by
  induction l with
  | nil => simp
  | cons x xs ih => simp [ih, mul_add]

theorem cdfIndex_map_mul (p : List ℚ) (u c : ℚ) (hc : c ≠ 0) :
    cdfIndex (p.map fun w => c * w) u = cdfIndex p u := by
  unfold cdfIndex
  rw [cumsum_map_mul, sum_map_mul_const, List.countP_map, List.length_map]
  congr 1
  apply List.countP_congr
  intro x hx
  simp only [Function.comp_apply, decide_eq_true_eq]
  rw [mul_div_mul_left x p.sum hc]

/-- C5 counterexample: weights summing to `2/5` make the slot-grouped
sampler raise the `ValueError` of `np.random.choice` instead of
renormalizing; the entity's generation fails. -/
theorem C5_counterexample :
    generate_consumption_value exSlotBadW 0 ⟨[0], []⟩ =
      Except.error "probabilities do not sum to 1" := by
  norm_num [generate_consumption_value, exSlotBadW, exSlotA, randU,
    npChoiceErr, atol, abs_le]

/-- C5 as amended: a weight vector whose sum is off from `1` by more than
numpy's tolerance `2 ^ (-26)` makes the categorical draw raise — the
slot-grouped sampler propagates the error, the cluster sampler catches it and
returns `0`; only within that tolerance does the draw renormalize, and the
selected component is invariant under rescaling the weight vector. -/
theorem C5_amended_weight_sum :
    (∀ (p : TimePattern) (t : Transitions) (u : ℚ) (us zs : List ℚ),
       p.transitions = some t →
       u < t.zero_to_non_zero →
       p.gmm_weights.length = p.gmm_means.length →
       p.gmm_means ≠ [] →
       (∀ w ∈ p.gmm_weights, 0 ≤ w) →
       ¬ |p.gmm_weights.sum - 1| ≤ atol →
       generate_consumption_value p 0 ⟨u :: us, zs⟩ =
         Except.error "probabilities do not sum to 1") ∧
    (∀ (g : GmmParams) (tp : TemporalPatterns) (hour dow : ℕ) (r : RState),
       g.weights.length = g.means.length →
       g.means ≠ [] →
       (∀ w ∈ g.weights, 0 ≤ w) →
       ¬ |g.weights.sum - 1| ≤ atol →
       generate_consumption_value_c (some g) tp hour dow r = (0, r)) ∧
    (∀ (p : List ℚ) (u c : ℚ), c ≠ 0 →
       cdfIndex (p.map fun w => c * w) u = cdfIndex p u) := by
  refine ⟨?_, ?_, ?_⟩
  · intro p t u us zs htr hu hlen hne hpos hsum
    simp only [generate_consumption_value, randU]
    rw [htr]
    rw [npChoiceErr_not_sum_one _ _ (by simpa using hne) hlen hpos hsum]
    simp [hu]
  · intro g tp hour dow r hlen hne hpos hsum
    have herr := npChoiceErr_not_sum_one g.means.length g.weights
      (by simpa using hne) hlen hpos hsum
    simp only [generate_consumption_value_c, gcvClusterTry, herr]
  · intro p u c hc
    exact cdfIndex_map_mul p u c hc

/-- Witness for C5 at concrete inputs. -/
theorem C5_witness :
    (generate_consumption_value exSlotBadW 0 ⟨[1/2], [3]⟩ =
       Except.error "probabilities do not sum to 1") ∧
    (generate_consumption_value_c
       (some { means := [10, 20], weights := [1/5, 1/5], covars := [1, 1] })
       ⟨[], []⟩ 3 2 ⟨[], []⟩ = (0, ⟨[], []⟩)) ∧
    (cdfIndex ([1/5, 1/5].map fun w => 2 * w) (1/2) = cdfIndex [1/5, 1/5] (1/2)) := by
  refine ⟨?_, ?_, ?_⟩
  · exact C5_amended_weight_sum.1 exSlotBadW { zero_to_non_zero := 1, non_zero_to_zero := 0 }
      (1/2) [] [3] (by norm_num [exSlotBadW, exSlotA]) (by norm_num)
      (by norm_num [exSlotBadW, exSlotA]) (by simp [exSlotBadW, exSlotA])
      (by norm_num [exSlotBadW, exSlotA])
      (by norm_num [exSlotBadW, exSlotA, atol, abs_of_pos])
  · exact C5_amended_weight_sum.2.1 _ _ 3 2 ⟨[], []⟩ (by norm_num) (by simp)
      (by norm_num) (by norm_num [atol, abs_of_pos])
  · exact C5_amended_weight_sum.2.2 [1/5, 1/5] (1/2) 2 (by norm_num)

theorem cdfIndex_half (u : ℚ) :
    cdfIndex [1/2, 1/2] u = if 1/2 ≤ u then 1 else 0 := by
  have hs : ([1/2, 1/2] : List ℚ).sum = 1 := by norm_num
  by_cases h1 : (1:ℚ)/2 ≤ u <;> by_cases h2 : (1:ℚ) ≤ u <;>
    norm_num [cdfIndex, cumsum, cumsumFrom, List.countP_cons, hs, h1, h2] <;>
    linarith

/-- C6 counterexample: a slot without the `transitions` key makes the
slot-grouped sampler raise `KeyError` instead of using a default. -/
theorem C6_counterexample :
    generate_consumption_value exSlotNoTrans 0 ⟨[0], []⟩ =
      Except.error "KeyError: transitions" := by
  norm_num [generate_consumption_value, exSlotNoTrans, exSlotA, randU]

/-- C6 as amended: only the cluster variant falls back to the default
`{0.5, 0.5}` distribution when the current state has no transition row; the
slot-grouped variant raises `KeyError` whenever the active slot lacks the
`transitions` key, failing that entity. -/
theorem C6_amended_default_transitions :
    (∀ (current_state : ℕ) (transitions : TransMap) (u : ℚ) (us zs : List ℚ),
       alookup current_state transitions = none →
       generate_consumption_state current_state transitions ⟨u :: us, zs⟩ =
         Except.ok (if 1/2 ≤ u then 1 else 0, ⟨us, zs⟩)) ∧
    (∀ (p : TimePattern) (previous_value : ℚ) (r : RState),
       p.transitions = none →
       generate_consumption_value p previous_value r =
         Except.error "KeyError: transitions") := by
  constructor
  · intro cs trans u us zs hl
    simp only [generate_consumption_state, hl, Option.getD]
    norm_num [npChoiceErr, atol, randU, cdfIndex_half]
    split <;> simp
  · intro p pv r htr
    simp only [generate_consumption_value, htr]

/-- Witness for C6 at concrete inputs. -/
theorem C6_witness :
    (generate_consumption_state 5 [] ⟨[3/4], [9]⟩ = Except.ok (1, ⟨[], [9]⟩)) ∧
    (generate_consumption_value exSlotNoTrans 7 ⟨[1/3], [2]⟩ =
       Except.error "KeyError: transitions") := by
  constructor
  · have h := C6_amended_default_transitions.1 5 [] (3/4) [] [9] (by simp [alookup])
    rw [h]
    norm_num
  · exact C6_amended_default_transitions.2 exSlotNoTrans 7 _
      (by simp [exSlotNoTrans, exSlotA])

theorem varyMeans_spec (means : List ℚ) (v : ℚ) (r : RState) :
    ∃ es : List ℚ, es.length = means.length ∧
      (varyMeans means v r).1 = List.zipWith (fun m e => m * (1 + e)) means es := by
  induction means generalizing r with
  | nil => exact ⟨[], rfl, rfl⟩
  | cons m ms ih =>
    obtain ⟨es, hlen, hz⟩ := ih ((randN 0 v r).2)
    refine ⟨(randN 0 v r).1 :: es, by simp [hlen], ?_⟩
    simp only [varyMeans, List.zipWith_cons_cons, hz]

/-- C7 counterexample: the variator also perturbs `basic_stats.mean` — with
variation draw `1` for that field the private copy carries mean `10` where
the shared slot has mean `5`, contradicting "bounds are copied unchanged". -/
theorem C7_counterexample :
    varySlot exSlotA 1 ⟨[], [0, 0, 1]⟩ =
      Except.ok
        ({ exSlotA with
           basic_stats := { mean := 10, std := 0, min := 0, max := 10 } },
          ⟨[], []⟩) ∧
    exSlotA.basic_stats.mean = 5 := by
  constructor
  · norm_num [varySlot, varyMeans, randN, exSlotA]
  · norm_num [exSlotA]

/-- C7 as amended: the variator multiplies the mixture means, the common
value and the bounds mean by `1 + N(0, variationFactor)`; the weights,
variances, percentiles, transitions, zero probability and the bounds std,
min and max are copied unchanged. -/
theorem C7_amended_variator_frame :
    ∀ (tp : TimePattern) (v : ℚ) (r : RState) (tp' : TimePattern) (r' : RState),
      varySlot tp v r = Except.ok (tp', r') →
      tp'.gmm_weights = tp.gmm_weights ∧
      tp'.gmm_covariances = tp.gmm_covariances ∧
      tp'.percentiles = tp.percentiles ∧
      tp'.transitions = tp.transitions ∧
      tp'.zero_probability = tp.zero_probability ∧
      tp'.basic_stats.std = tp.basic_stats.std ∧
      tp'.basic_stats.min = tp.basic_stats.min ∧
      tp'.basic_stats.max = tp.basic_stats.max ∧
      (∃ es : List ℚ, es.length = tp.gmm_means.length ∧
        tp'.gmm_means = List.zipWith (fun m e => m * (1 + e)) tp.gmm_means es) ∧
      (∃ e : ℚ, tp'.common_values = tp.common_values * (1 + e)) ∧
      (∃ e : ℚ, tp'.basic_stats.mean = tp.basic_stats.mean * (1 + e)) := by
  intro tp v r tp' r' h
  simp only [varySlot] at h
  split at h
  · exact Except.noConfusion h
  · rename_i tr htr
    injection h with h1
    injection h1 with h2 h3
    subst h2
    refine ⟨rfl, rfl, rfl, htr.symm, rfl, rfl, rfl, rfl, ?_, ⟨_, rfl⟩, ⟨_, rfl⟩⟩
    exact varyMeans_spec tp.gmm_means v r

/-- Witness for C7: at `variationFactor = 1` with all-zero noise draws the
varied copy of `exSlotA` is `exSlotA` itself, and the theorem's conclusion
holds of it. -/
theorem C7_witness :
    exSlotA.gmm_weights = exSlotA.gmm_weights ∧
    exSlotA.gmm_covariances = exSlotA.gmm_covariances ∧
    exSlotA.percentiles = exSlotA.percentiles ∧
    exSlotA.transitions = exSlotA.transitions ∧
    exSlotA.zero_probability = exSlotA.zero_probability ∧
    exSlotA.basic_stats.std = exSlotA.basic_stats.std ∧
    exSlotA.basic_stats.min = exSlotA.basic_stats.min ∧
    exSlotA.basic_stats.max = exSlotA.basic_stats.max ∧
    (∃ es : List ℚ, es.length = exSlotA.gmm_means.length ∧
      exSlotA.gmm_means = List.zipWith (fun m e => m * (1 + e)) exSlotA.gmm_means es) ∧
    (∃ e : ℚ, exSlotA.common_values = exSlotA.common_values * (1 + e)) ∧
    (∃ e : ℚ, exSlotA.basic_stats.mean = exSlotA.basic_stats.mean * (1 + e)) :=
  C7_amended_variator_frame exSlotA 1 ⟨[], [0, 0, 0]⟩ exSlotA ⟨[], []⟩
    (by norm_num [varySlot, varyMeans, randN, exSlotA])

/-- C8 counterexample: a slot whose mixture lists are empty makes the
slot-grouped sampler raise (`np.random.choice` on an empty population)
instead of returning `0`. -/
theorem C8_counterexample :
    generate_consumption_value exSlotEmptyMix 5 ⟨[3/4], []⟩ =
      Except.error "a must be greater than 0" := by
  norm_num [generate_consumption_value, exSlotEmptyMix, exSlotA, randU,
    npChoiceErr]

/-- C8 as amended: only the cluster sampler returns `0` when the mixture is
absent (`gmm` key missing) or empty (via its exception handler); the
slot-grouped sampler raises on an empty mixture whenever the occupancy
decision asks for a non-zero value, failing that entity. -/
theorem C8_amended_empty_mixture :
    (∀ (tp : TemporalPatterns) (hour dow : ℕ) (r : RState),
       generate_consumption_value_c none tp hour dow r = (0, r)) ∧
    (∀ (g : GmmParams) (tp : TemporalPatterns) (hour dow : ℕ) (r : RState),
       g.means = [] →
       generate_consumption_value_c (some g) tp hour dow r = (0, r)) ∧
    (∀ (p : TimePattern) (t : Transitions) (previous_value u : ℚ) (us zs : List ℚ),
       p.transitions = some t →
       previous_value ≠ 0 →
       ¬ u < t.non_zero_to_zero →
       p.gmm_means = [] →
       generate_consumption_value p previous_value ⟨u :: us, zs⟩ =
         Except.error "a must be greater than 0") := by
  refine ⟨?_, ?_, ?_⟩
  · intro tp hour dow r
    simp [generate_consumption_value_c, gcvClusterTry]
  · intro g tp hour dow r hg
    simp [generate_consumption_value_c, gcvClusterTry, hg, npChoiceErr]
  · intro p t pv u us zs htr hpv hu hm
    simp only [generate_consumption_value, randU]
    rw [htr]
    simp [hpv, hu, hm, npChoiceErr]

/-- Witness for C8 at concrete inputs. -/
theorem C8_witness :
    (generate_consumption_value_c none ⟨[], []⟩ 4 6 ⟨[1/2], [1]⟩ = (0, ⟨[1/2], [1]⟩)) ∧
    (generate_consumption_value_c (some { means := [], weights := [], covars := [] })
       ⟨[], []⟩ 4 6 ⟨[1/2], [1]⟩ = (0, ⟨[1/2], [1]⟩)) ∧
    (generate_consumption_value exSlotEmptyMix 5 ⟨[7/8], [2]⟩ =
       Except.error "a must be greater than 0") := by
  refine ⟨?_, ?_, ?_⟩
  · exact C8_amended_empty_mixture.1 ⟨[], []⟩ 4 6 ⟨[1/2], [1]⟩
  · exact C8_amended_empty_mixture.2.1 _ ⟨[], []⟩ 4 6 ⟨[1/2], [1]⟩ rfl
  · exact C8_amended_empty_mixture.2.2 exSlotEmptyMix
      { zero_to_non_zero := 1, non_zero_to_zero := 0 } 5 (7/8) [] [2]
      (by norm_num [exSlotEmptyMix, exSlotA]) (by norm_num) (by norm_num)
      (by norm_num [exSlotEmptyMix, exSlotA])

theorem gcv_prev_congr (p : TimePattern) (v w : ℚ)
    (hvw : v = 0 ↔ w = 0) :
    generate_consumption_value p v = generate_consumption_value p w := by
  funext r
  by_cases hv : v = 0
  · have hw := hvw.mp hv
    simp only [generate_consumption_value, hv, hw]
  · have hw : ¬ w = 0 := fun h => hv (hvw.mpr h)
    simp only [generate_consumption_value, if_neg hv, if_neg hw]

theorem slotBranch_prev_congr (tp : TimePattern) (ds : DailySequence)
    (hour : ℕ) (v w : ℚ) (hvw : v = 0 ↔ w = 0) :
    slotBranch tp ds hour v = slotBranch tp ds hour w := by
  funext r
  simp only [slotBranch, gcv_prev_congr tp v w hvw]

theorem meterStep_prev_congr (mp : List (ℕ × DayPatterns)) (t : ℕ) (v w : ℚ)
    (r : RState) (hvw : v = 0 ↔ w = 0) :
    meterStep mp t v r = meterStep mp t w r := by
  simp only [meterStep, slotBranch_prev_congr _ _ _ v w hvw]

/-- C10 as amended: the slot-grouped loop is equivalent to a Boolean
occupancy machine whose state is "the unrounded value computed at the most
recent resolved step was zero" (initially: the initial previous value is
zero): the state is updated only on steps whose slot and `daily_sequence`
resolve, so a zero emitted for a missing slot leaves the chain unchanged,
and the update tests the value before rounding, not the emitted rounded
value. -/
theorem C10_amended_occupancy_abstraction (mp : List (ℕ × DayPatterns))
    (oid : ℤ) (ts : List ℕ) (prev : ℚ) (r : RState) :
    meterLoop mp oid ts prev r = meterLoopB mp oid ts (decide (prev = 0)) r := by
  induction ts generalizing prev r with
  | nil => rfl
  | cons t rest ih =>
    simp only [meterLoop, meterLoopB]
    have hstep : meterStep mp t (if decide (prev = 0) then (0:ℚ) else 1) r =
        meterStep mp t prev r := by
      apply meterStep_prev_congr
      by_cases h : prev = 0 <;> simp [h]
    rw [hstep]
    cases hms : meterStep mp t prev r with
    | error e => rfl
    | ok trip =>
      obtain ⟨c, resolved, r'⟩ := trip
      have hdec : decide ((if resolved then c else prev) = 0) =
          (if resolved then decide (c = 0) else decide (prev = 0)) := by
        cases resolved <;> simp
      dsimp only
      rw [ih, hdec]

/-- C10 counterexample: with a slot at `00:00` that enters the non-zero
state, no slot at `00:15`, and a slot at `00:30` whose transitions freeze the
state, the code emits a non-zero reading at `00:30` (the zero emitted for the
missing `00:15` slot did not reset the chain), while the machine that follows
the claim word for word emits `0` there. -/
theorem C10_counterexample :
    (meterLoop exDaysC10 1 [0, 15, 30] 0 exRC10).toOption ≠
      (meterLoopClaimC10 exDaysC10 1 [0, 15, 30] true exRC10).toOption := by
  have hrnd5 : rnd2 5 = 5 := by norm_num [rnd2, roundEven]
  have hrnd0 : rnd2 0 = 0 := by norm_num [rnd2, roundEven]
  have hgA : generate_consumption_value exSlotA 0 exRC10 =
      Except.ok (5, ⟨[0, 0, 1/2], []⟩) := by
    norm_num [generate_consumption_value, exSlotA, exRC10, randU, randNvar,
      npChoiceErr, cdfIndex, cumsum, cumsumFrom, atol]
  have hgB5 : generate_consumption_value exSlotB 5 ⟨[0, 0, 1/2], []⟩ =
      Except.ok (5, ⟨[], []⟩) := by
    norm_num [generate_consumption_value, exSlotB, exSlotA, randU, randNvar,
      npChoiceErr, cdfIndex, cumsum, cumsumFrom, atol]
  have hgB0 : generate_consumption_value exSlotB 0 ⟨[0, 0, 1/2], []⟩ =
      Except.ok (0, ⟨[0, 1/2], []⟩) := by
    norm_num [generate_consumption_value, exSlotB, exSlotA, randU, randNvar,
      npChoiceErr, cdfIndex, cumsum, cumsumFrom, atol]
  have hjA : applyJitter exSlotA 5 ⟨[0, 0, 1/2], []⟩ = (5, ⟨[0, 0, 1/2], []⟩) := by
    norm_num [applyJitter, randN, exSlotA]
  have hjB : applyJitter exSlotB 5 ⟨[], []⟩ = (5, ⟨[], []⟩) := by
    norm_num [applyJitter, randN, exSlotB, exSlotA]
  have hjB0 : applyJitter exSlotB 0 ⟨[0, 1/2], []⟩ = (0, ⟨[0, 1/2], []⟩) := by
    norm_num [applyJitter]
  have hsbA : slotBranch exSlotA { peak_times := [], zero_periods := [] }
      (hourOf 0) 0 exRC10 = Except.ok (5, ⟨[0, 0, 1/2], []⟩) := by
    simp only [slotBranch, List.not_mem_nil, if_false, ite_false]
    exact hgA
  have hsbB5 : slotBranch exSlotB { peak_times := [], zero_periods := [] }
      (hourOf 30) 5 ⟨[0, 0, 1/2], []⟩ = Except.ok (5, ⟨[], []⟩) := by
    simp only [slotBranch, List.not_mem_nil, if_false, ite_false]
    exact hgB5
  have hsbB0 : slotBranch exSlotB { peak_times := [], zero_periods := [] }
      (hourOf 30) 0 ⟨[0, 0, 1/2], []⟩ = Except.ok (0, ⟨[0, 1/2], []⟩) := by
    simp only [slotBranch, List.not_mem_nil, if_false, ite_false]
    exact hgB0
  have hs1 : meterStep exDaysC10 0 0 exRC10 =
      Except.ok (5, true, ⟨[0, 0, 1/2], []⟩) := by
    norm_num [meterStep, exDaysC10, alookup, dayOfWeek, hmOf, Prod.mk.injEq,
      -Prod.mk_zero_zero, hsbA, hjA]
  have hs2 : ∀ v : ℚ, meterStep exDaysC10 15 v ⟨[0, 0, 1/2], []⟩ =
      Except.ok (0, false, ⟨[0, 0, 1/2], []⟩) := by
    intro v
    norm_num [meterStep, exDaysC10, alookup, dayOfWeek, hmOf, Prod.mk.injEq,
      -Prod.mk_zero_zero]
  have hs3 : meterStep exDaysC10 30 5 ⟨[0, 0, 1/2], []⟩ =
      Except.ok (5, true, ⟨[], []⟩) := by
    norm_num [meterStep, exDaysC10, alookup, dayOfWeek, hmOf, Prod.mk.injEq,
      -Prod.mk_zero_zero, hsbB5, hjB]
  have hs3b : meterStep exDaysC10 30 0 ⟨[0, 0, 1/2], []⟩ =
      Except.ok (0, true, ⟨[0, 1/2], []⟩) := by
    norm_num [meterStep, exDaysC10, alookup, dayOfWeek, hmOf, Prod.mk.injEq,
      -Prod.mk_zero_zero, hsbB0, hjB0]
  have h1 : meterLoop exDaysC10 1 [0, 15, 30] 0 exRC10 =
      Except.ok [{ OBJECTID := 1, TimeStamp := 0, Consumption := 5 },
                 { OBJECTID := 1, TimeStamp := 15, Consumption := 0 },
                 { OBJECTID := 1, TimeStamp := 30, Consumption := 5 }] := by
    simp [meterLoop, hs1, hs2, hs3, hrnd5, hrnd0, -one_div]
  have h2 : meterLoopClaimC10 exDaysC10 1 [0, 15, 30] true exRC10 =
      Except.ok [{ OBJECTID := 1, TimeStamp := 0, Consumption := 5 },
                 { OBJECTID := 1, TimeStamp := 15, Consumption := 0 },
                 { OBJECTID := 1, TimeStamp := 30, Consumption := 0 }] := by
    simp [meterLoopClaimC10, hs1, hs2, hs3b, hrnd5, hrnd0, -one_div]
  rw [h1, h2]
  norm_num [Except.toOption]

theorem alookup_mem {alpha beta : Type} [DecidableEq alpha] (k : alpha)
    (l : List (alpha × beta)) (b : beta) (h : alookup k l = some b) :
    (k, b) ∈ l := by
  induction l with
  | nil => exact Option.noConfusion h
  | cons hd tl ih =>
    obtain ⟨a, b'⟩ := hd
    unfold alookup at h
    split at h
    · rename_i ha
      injection h with hb
      rw [← ha, hb]
      exact List.mem_cons_self _ _
    · exact List.mem_cons_of_mem _ (ih h)

theorem varyMeans_us (ms : List ℚ) (v : ℚ) (r : RState) :
    (varyMeans ms v r).2.us = r.us := by
  induction ms generalizing r with
  | nil => rfl
  | cons m rest ih => simp [varyMeans, ih, randN]

theorem varySlot_keep (tp : TimePattern) (t : Transitions) (v : ℚ) (r : RState)
    (htr : tp.transitions = some t) :
    ∃ tp' r', varySlot tp v r = Except.ok (tp', r') ∧
      tp'.transitions = some t ∧ r'.us = r.us := by
  simp only [varySlot, htr]
  refine ⟨_, _, rfl, rfl, ?_⟩
  simp [randN, varyMeans_us]

theorem varySlots_keep (slots : List ((ℕ × ℕ) × TimePattern)) (v : ℚ) (r : RState)
    (hz : ∀ k tp, (k, tp) ∈ slots → ∃ n2z : ℚ,
      tp.transitions = some { zero_to_non_zero := 0, non_zero_to_zero := n2z }) :
    ∃ slots' r', varySlots slots v r = Except.ok (slots', r') ∧
      r'.us = r.us ∧
      ∀ k tp, (k, tp) ∈ slots' → ∃ n2z : ℚ,
        tp.transitions = some { zero_to_non_zero := 0, non_zero_to_zero := n2z } := by
  induction slots generalizing r with
  | nil => exact ⟨[], r, rfl, rfl, by simp⟩
  | cons hd tl ih =>
    obtain ⟨k0, tp0⟩ := hd
    obtain ⟨n2z, htr⟩ := hz k0 tp0 (List.mem_cons_self _ _)
    obtain ⟨tp', r1, hok, htr', hus⟩ := varySlot_keep tp0 _ v r htr
    obtain ⟨tl', r2, hok2, hus2, hz2⟩ := ih r1
      (fun k tp hm => hz k tp (List.mem_cons_of_mem _ hm))
    refine ⟨(k0, tp') :: tl', r2, ?_, by rw [hus2, hus], ?_⟩
    · simp only [varySlots, hok, hok2]
    · intro k tp hm
      rcases List.mem_cons.mp hm with hm | hm
      · injection hm with h1 h2
        exact ⟨n2z, h2 ▸ htr'⟩
      · exact hz2 k tp hm

theorem varyPatterns_keep (days : List (ℕ × DayPatterns)) (v : ℚ) (r : RState)
    (hz : ∀ d dps, (d, dps) ∈ days → ∀ k tp, (k, tp) ∈ dps.slots → ∃ n2z : ℚ,
      tp.transitions = some { zero_to_non_zero := 0, non_zero_to_zero := n2z }) :
    ∃ days' r', varyPatterns days v r = Except.ok (days', r') ∧
      r'.us = r.us ∧
      ∀ d dps, (d, dps) ∈ days' → ∀ k tp, (k, tp) ∈ dps.slots → ∃ n2z : ℚ,
        tp.transitions = some { zero_to_non_zero := 0, non_zero_to_zero := n2z } := by
  induction days generalizing r with
  | nil => exact ⟨[], r, rfl, rfl, by simp⟩
  | cons hd tl ih =>
    obtain ⟨d0, dps0⟩ := hd
    obtain ⟨slots', r1, hok, hus, hz1⟩ := varySlots_keep dps0.slots v r
      (hz d0 dps0 (List.mem_cons_self _ _))
    obtain ⟨tl', r2, hok2, hus2, hz2⟩ := ih r1
      (fun d dps hm => hz d dps (List.mem_cons_of_mem _ hm))
    refine ⟨(d0, ⟨dps0.daily_sequence, slots'⟩) :: tl', r2, ?_, by rw [hus2, hus], ?_⟩
    · simp only [varyPatterns, hok, hok2]
    · intro d dps hm
      rcases List.mem_cons.mp hm with hm | hm
      · injection hm with h1 h2
        intro k tp hk
        rw [h2] at hk
        exact hz1 k tp hk
      · exact hz2 d dps hm

theorem us_tail_nonneg (l : List ℚ) (h : ∀ u ∈ l, 0 ≤ u) :
    ∀ u ∈ l.tail, 0 ≤ u :=
  fun u hu => h u (List.mem_of_mem_tail hu)

theorem gcv_zero_step (tp : TimePattern) (n2z : ℚ) (r : RState)
    (htr : tp.transitions = some { zero_to_non_zero := 0, non_zero_to_zero := n2z })
    (hu : ∀ u ∈ r.us, 0 ≤ u) :
    generate_consumption_value tp 0 r = Except.ok (0, ⟨r.us.tail, r.zs⟩) := by
  have hnn : ¬ ((r.us.headD 0 : ℚ) < 0) := by
    cases hus : r.us with
    | nil => simp
    | cons a as =>
      simpa using hu a (by rw [hus]; exact List.mem_cons_self _ _)
  simp only [generate_consumption_value, randU, htr]
  simp only [List.headD_eq_head?_getD] at hnn
  simp [hnn]

theorem slotBranch_zero (tp : TimePattern) (ds : DailySequence) (hour : ℕ)
    (n2z : ℚ) (r : RState)
    (htr : tp.transitions = some { zero_to_non_zero := 0, non_zero_to_zero := n2z })
    (hu : ∀ u ∈ r.us, 0 ≤ u) :
    ∃ r', slotBranch tp ds hour 0 r = Except.ok (0, r') ∧ ∀ u ∈ r'.us, 0 ≤ u := by
  have hu1 : ∀ u ∈ r.us.tail, 0 ≤ u := us_tail_nonneg _ hu
  have hu2 : ∀ u ∈ r.us.tail.tail, 0 ≤ u := us_tail_nonneg _ hu1
  have hu3 : ∀ u ∈ r.us.tail.tail.tail, 0 ≤ u := us_tail_nonneg _ hu2
  by_cases hp : hour ∈ ds.peak_times
  · rw [slotBranch, if_pos hp, gcv_zero_step tp n2z r htr hu]
    simp only [randU]
    split
    · split
      · rw [gcv_zero_step tp n2z _ htr hu2]
        exact ⟨_, rfl, hu3⟩
      · exact ⟨_, rfl, hu2⟩
    · rename_i h0
      exact absurd trivial h0
  · by_cases hz : hour ∈ ds.zero_periods
    · rw [slotBranch, if_neg hp, if_pos hz]
      simp only [randU]
      split
      · exact ⟨_, rfl, hu1⟩
      · rw [gcv_zero_step tp n2z _ htr hu1]
        exact ⟨_, rfl, hu2⟩
    · rw [slotBranch, if_neg hp, if_neg hz, gcv_zero_step tp n2z r htr hu]
      exact ⟨_, rfl, hu1⟩

theorem rnd2_zero : rnd2 0 = 0 := by norm_num [rnd2, roundEven]

theorem meterStep_zero (mp : List (ℕ × DayPatterns)) (t : ℕ) (r : RState)
    (hz : ∀ d dps, (d, dps) ∈ mp → ∀ k tp, (k, tp) ∈ dps.slots → ∃ n2z : ℚ,
      tp.transitions = some { zero_to_non_zero := 0, non_zero_to_zero := n2z })
    (hu : ∀ u ∈ r.us, 0 ≤ u) :
    ∃ b r', meterStep mp t 0 r = Except.ok (0, b, r') ∧ ∀ u ∈ r'.us, 0 ≤ u := by
  cases halook : alookup (dayOfWeek t) mp with
  | none => exact ⟨false, r, by simp only [meterStep, halook], hu⟩
  | some dps =>
    cases hds : dps.daily_sequence with
    | none =>
      cases hslot : alookup (hmOf t) dps.slots with
      | none => exact ⟨false, r, by simp only [meterStep, halook, hslot, hds], hu⟩
      | some tp => exact ⟨false, r, by simp only [meterStep, halook, hslot, hds], hu⟩
    | some ds =>
      cases hslot : alookup (hmOf t) dps.slots with
      | none => exact ⟨false, r, by simp only [meterStep, halook, hslot, hds], hu⟩
      | some tp =>
        have hmem := alookup_mem _ _ _ halook
        have hmem2 := alookup_mem _ _ _ hslot
        obtain ⟨n2z, htr⟩ := hz _ _ hmem _ _ hmem2
        obtain ⟨r', hsb, hu'⟩ := slotBranch_zero tp ds (hourOf t) n2z r htr hu
        refine ⟨true, r', ?_, hu'⟩
        simp only [meterStep, halook, hslot, hds, hsb]
        norm_num [applyJitter]

theorem meterLoop_zero (mp : List (ℕ × DayPatterns)) (oid : ℤ) (ts : List ℕ)
    (r : RState)
    (hz : ∀ d dps, (d, dps) ∈ mp → ∀ k tp, (k, tp) ∈ dps.slots → ∃ n2z : ℚ,
      tp.transitions = some { zero_to_non_zero := 0, non_zero_to_zero := n2z })
    (hu : ∀ u ∈ r.us, 0 ≤ u) :
    ∃ out, meterLoop mp oid ts 0 r = Except.ok out ∧
      ∀ rec ∈ out, rec.Consumption = 0 := by
  induction ts generalizing r with
  | nil => exact ⟨[], rfl, by simp⟩
  | cons t rest ih =>
    obtain ⟨b, r', hstep, hu'⟩ := meterStep_zero mp t r hz hu
    obtain ⟨out, hloop, hall⟩ := ih r' hu'
    refine ⟨{ OBJECTID := oid, TimeStamp := t, Consumption := 0 } :: out, ?_, ?_⟩
    · simp only [meterLoop, hstep, ite_self, hloop, rnd2_zero]
    · intro rec hrec
      rcases List.mem_cons.mp hrec with hr | hr
      · rw [hr]
      · exact hall rec hr

/-- C9: for a slot-grouped pattern whose slots all carry
`transitions = {zero_to_non_zero: 0.0}` and the entity's initial state zero,
every generated reading is `0`, for every timestamp range and every sequence
of draws whose uniform outcomes are non-negative (as `np.random.random`'s
are) — covering peak-hour resampling, zero-period forcing, common-value
substitution and jitter draws. -/
theorem C9_zero_transitions_all_zero :
    ∀ (patterns : Patterns) (start_date end_date : ℕ) (oid : ℤ) (v : ℚ)
      (r : RState),
      (∀ d dps, (d, dps) ∈ patterns.days → ∀ k tp, (k, tp) ∈ dps.slots →
        ∃ n2z : ℚ, tp.transitions =
          some { zero_to_non_zero := 0, non_zero_to_zero := n2z }) →
      (∀ u ∈ r.us, 0 ≤ u) →
      ∃ out, generate_meter_data patterns start_date end_date oid v r =
          Except.ok out ∧
        ∀ rec ∈ out, rec.Consumption = 0 := by
  intro patterns s e oid v r hz hu
  obtain ⟨days', r1, hok, hus, hz'⟩ := varyPatterns_keep patterns.days v r hz
  have hu1 : ∀ u ∈ r1.us, 0 ≤ u := by rw [hus]; exact hu
  obtain ⟨out, hloop, hall⟩ := meterLoop_zero days' oid (date_range s e) r1 hz' hu1
  exact ⟨out, by simp only [generate_meter_data, hok, hloop], hall⟩

/-- Witness for C9: a pattern with one always-zero slot declared as a peak
hour, on a one-slot range, with concrete in-range uniform draws. -/
theorem C9_witness :
    ∃ out, generate_meter_data exPatternsC9 0 0 1 0 ⟨[1/2, 1/3], []⟩ =
        Except.ok out ∧
      ∀ rec ∈ out, rec.Consumption = 0 := by
  apply C9_zero_transitions_all_zero exPatternsC9 0 0 1 0 ⟨[1/2, 1/3], []⟩
  · intro d dps hm k tp hk
    simp only [exPatternsC9, List.mem_singleton] at hm
    injection hm with h1 h2
    rw [h2] at hk
    simp only [List.mem_singleton] at hk
    injection hk with h3 h4
    rw [h4]
    exact ⟨0, rfl⟩
  · intro u h
    simp only [List.mem_cons, List.not_mem_nil, or_false] at h
    rcases h with h | h <;> norm_num [h]
